import Mathlib

/-!
Verification of the repo-health-metrics scripts: a shallow embedding of the
aggregation, pagination, enrichment and response-time classification logic of
`activity.js`, the repository-health script (`index.js`) and the open-PR
monitor script, together with theorems settling the specified properties.

Network fetches are modelled by traces: each paginated loop is a function of
the list of successive responses the endpoint would return, in arrival order.
JavaScript `Date` values are modelled by a calendar record (`JSDate`) whose
`key` is strictly monotone in chronological order for canonical dates, so the
source's `>=` comparisons on dates become `key` comparisons, and
`d.setMonth(d.getMonth() - 1)` becomes the calendar function
`setMonthMinusOne` below (UTC; ECMAScript month-underflow and day-overflow
normalization).
-/

namespace RepoHealth

/-- Model of a JavaScript `Date`: calendar fields (month is 0-based as in JS,
`msOfDay` is the time of day in milliseconds). A date is canonical when
`month < 12`, `1 ≤ day ≤ daysInMonth`, `msOfDay < 86400000`; all dates built
by the scripts are canonical. -/
structure JSDate where
  year : Int
  month : Nat
  day : Nat
  msOfDay : Nat
deriving DecidableEq, Repr

/-- Order key: strictly monotone in chronological order on canonical dates
(month < 12 ≤ 12, day < 32, msOfDay < 86400000), so JS numeric date
comparison `a >= b` is `b.key ≤ a.key`. -/
def JSDate.key (d : JSDate) : Int :=
  ((d.year * 12 + (d.month : Int)) * 32 + (d.day : Int)) * 86400000 + (d.msOfDay : Int)

/-- JS `a <= b` on dates (numeric comparison of epoch milliseconds). -/
def dateLe (a b : JSDate) : Bool := decide (a.key ≤ b.key)

/-- Gregorian leap year, as used by `Date` month arithmetic. -/
def isLeapYear (y : Int) : Bool :=
  y % 4 == 0 && (y % 100 != 0 || y % 400 == 0)

/-- Days in month `m` (0-based) of year `y`. -/
def daysInMonth (y : Int) (m : Nat) : Nat :=
  if m = 1 then (if isLeapYear y then 29 else 28)
  else if m = 3 || m = 5 || m = 8 || m = 10 then 30
  else 31

/-- Embeds `const from = new Date(since); from.setMonth(from.getMonth() - 1)`
(activity.js lines 273-274): per ECMAScript MakeDay, month `-1` borrows from
the year, and a day past the target month's length overflows into the
following month (e.g. March 31 minus one month is February 31, normalized to
March 3). -/
def setMonthMinusOne (d : JSDate) : JSDate :=
  let y := if d.month = 0 then d.year - 1 else d.year
  let m := if d.month = 0 then 11 else d.month - 1
  if d.day ≤ daysInMonth y m then ⟨y, m, d.day, d.msOfDay⟩
  else
    ⟨if m = 11 then y + 1 else y, if m = 11 then 0 else m + 1,
      d.day - daysInMonth y m, d.msOfDay⟩

/-! ### activity.js — data model of the fetched nodes -/

/-- A reaction group on a PR comment (`reactionGroups` nodes of the
`prCommentsGraphql` query). -/
structure ReactionGroup where
  content : String
  reactorsTotalCount : Nat
deriving DecidableEq, Repr

/-- A PR comment as returned by `fetchPRComments` (pre-enrichment shape). -/
structure RawComment where
  authorLogin : Option String
  bodyText : String
  createdAt : JSDate
  reactionGroups : List ReactionGroup
deriving DecidableEq, Repr

/-- A PR comment after `enrichPullRequestData` collapsed its reaction groups:
`reactionGroups` is deleted and `reactions` (reaction kind to nonzero count)
is attached only when nonempty. -/
structure EnrichedComment where
  authorLogin : Option String
  bodyText : String
  createdAt : JSDate
  reactions : Option (List (String × Nat))
deriving DecidableEq, Repr

/-- A review thread comment (`prReviewDetailsGraphql` nested comment nodes). -/
structure ReviewComment where
  bodyText : String
  path : String
  position : Option Int
  diffHunk : String
  createdAt : JSDate
deriving DecidableEq, Repr

/-- A review node from `fetchPRReviewDetails`. -/
structure ReviewDetail where
  authorLogin : Option String
  state : String
  createdAt : JSDate
  comments : List ReviewComment
deriving DecidableEq, Repr

/-- A changed-file node from `fetchPRChangedFiles`. -/
structure ChangedFile where
  path : String
  additions : Nat
  deletions : Nat
  changeType : String
deriving DecidableEq, Repr

/-- A timeline node from `fetchPRTimeline` (`__typename` plus the fields of
whichever fragment applies; absent fields are `none`). -/
structure TimelineItem where
  typename : String
  actorLogin : Option String
  createdAt : Option JSDate
  requestedReviewerLogin : Option String
  commitOid : Option String
deriving DecidableEq, Repr

/-- A pull-request node of the `userActivityGraphql` query. The last four
fields are the optional secondary fields attached by enrichment; they are
absent (`none`) on a freshly fetched node. -/
structure APR where
  title : String
  number : Nat
  repositoryNameWithOwner : String
  createdAt : JSDate
  updatedAt : JSDate
  mergedAt : Option JSDate
  closedAt : Option JSDate
  isDraft : Bool
  state : String
  commitsTotalCount : Nat
  additions : Nat
  deletions : Nat
  commentsTotalCount : Nat
  reviewsTotalCount : Nat
  body : String
  commentDetails : Option (List EnrichedComment) := none
  reviewDetails : Option (List ReviewDetail) := none
  changedFiles : Option (List ChangedFile) := none
  timelineItems : Option (List TimelineItem) := none
deriving DecidableEq, Repr

/-- A review node of the `userActivityGraphql` query. -/
structure AReview where
  createdAt : JSDate
  updatedAt : JSDate
  state : String
  commentsTotalCount : Nat
  repositoryNameWithOwner : String
  prNumber : Nat
  prTitle : String
  prAuthorLogin : Option String
deriving DecidableEq, Repr

/-- An issue node of the `userActivityGraphql` query. -/
structure AIssue where
  title : String
  number : Nat
  repositoryNameWithOwner : String
  createdAt : JSDate
  updatedAt : JSDate
  closedAt : Option JSDate
  commentsTotalCount : Nat
deriving DecidableEq, Repr

/-- A `commitContributionsByRepository` bucket (coarse count only; the exact
commit list attached by `enrichCommitContributions` is not modelled here). -/
structure CommitBucket where
  repositoryNameWithOwner : String
  contributionsTotalCount : Nat
deriving DecidableEq, Repr

/-- One response of the `userActivityGraphql` query: the three paginated
contribution collections (each with its own nodes and `pageInfo`) plus the
non-paginated commit-by-repo bucket list. -/
structure ContribPage where
  prNodes : List APR
  prHasNextPage : Bool
  prEndCursor : Option String
  reviewNodes : List AReview
  reviewHasNextPage : Bool
  reviewEndCursor : Option String
  issueNodes : List AIssue
  issueHasNextPage : Bool
  issueEndCursor : Option String
  commitsByRepo : List CommitBucket
deriving DecidableEq, Repr

/-- The `activity` accumulator of `fetchUserActivity`. -/
structure UAActivity where
  pullRequests : List APR
  reviews : List AReview
  issues : List AIssue
  commitsByRepo : List CommitBucket
deriving DecidableEq, Repr

/-- The variables of one `fetchQuery(userActivityGraphql, ...)` call. -/
structure UARequest where
  cursor : Option String
  login : String
  since : JSDate
deriving DecidableEq, Repr

/-! ### activity.js — fetchUserActivity (lines 263-302), trace model -/

/-- The accumulation loop of `fetchUserActivity` over the trace of pages the
endpoint returns. Faithful to the source: every collection's nodes of a
fetched page are appended, `commitsByRepo` is captured from the first page
where the accumulator is still empty, but `hasNextPage` and `cursor` are
taken from `contributions.pullRequestContributions.pageInfo` only
(activity.js lines 291-293) — the review and issue collections' own
`pageInfo` is never consulted. -/
def fetchUserActivityLoop : List ContribPage → UAActivity
  | [] => ⟨[], [], [], []⟩
  | p :: rest =>
    let tail := if p.prHasNextPage then fetchUserActivityLoop rest else ⟨[], [], [], []⟩
    ⟨p.prNodes ++ tail.pullRequests,
      p.reviewNodes ++ tail.reviews,
      p.issueNodes ++ tail.issues,
      if p.commitsByRepo.isEmpty then tail.commitsByRepo else p.commitsByRepo⟩

/-- The requests `fetchUserActivity` issues, given the widened start date
`fromDate` and the current cursor: one request per consumed page, the next
request only when the current page's PR-contributions `pageInfo.hasNextPage`
is true, with its `endCursor` as the next (shared) cursor. -/
def fetchUserActivityRequestsFrom (login : String) (fromDate : JSDate)
    (cursor : Option String) : List ContribPage → List UARequest
  | [] => []
  | p :: rest =>
    ⟨cursor, login, fromDate⟩ ::
      (if p.prHasNextPage then
        fetchUserActivityRequestsFrom login fromDate p.prEndCursor rest
      else [])

/-- The full request list of one `fetchUserActivity` run: the widened start
is `since` minus one calendar month, the initial cursor is `null`. -/
def fetchUserActivityQueries (login : String) (since : JSDate)
    (pages : List ContribPage) : List UARequest :=
  fetchUserActivityRequestsFrom login (setMonthMinusOne since) none pages

/-- `fetchUserActivity`: run the pagination loop over the trace, then
post-filter each of the three contribution collections by
`new Date(x.updatedAt) >= since` (activity.js lines 297-299). -/
def fetchUserActivity (login : String) (since : JSDate)
    (pages : List ContribPage) : UAActivity :=
  let a := fetchUserActivityLoop pages
  { pullRequests := a.pullRequests.filter (fun pr => dateLe since pr.updatedAt)
    reviews := a.reviews.filter (fun r => dateLe since r.updatedAt)
    issues := a.issues.filter (fun i => dateLe since i.updatedAt)
    commitsByRepo := a.commitsByRepo }

/-! ### activity.js — fetchQuery (lines 239-260) -/

/-- One element of a GraphQL `errors` array (only `message` is read). -/
structure GraphQLErr where
  message : String
deriving DecidableEq, Repr

/-- A decoded GraphQL response body `{data, errors?}`; `payload` stands for
the `data` member, `errors := none` models an absent (or `null`) `errors`
member. -/
structure GQLBody (γ : Type) where
  payload : γ
  errors : Option (List GraphQLErr)
deriving DecidableEq, Repr

/-- An HTTP response to the GraphQL POST, as far as `fetchQuery` reads it. -/
structure GQLResponse (γ : Type) where
  status : Nat
  statusText : String
  body : GQLBody γ
deriving DecidableEq, Repr

/-- The ways `fetchQuery` can throw: the transport error for a non-200
status, the query error carrying `data.errors[0].message`, and the TypeError
raised by evaluating `data.errors[0].message` when `errors` is an empty
array (an empty array is truthy in JavaScript, so the `if (data.errors)`
branch is taken, and `data.errors[0]` is `undefined`). -/
inductive FetchError where
  | transport (statusText : String)
  | query (message : String)
  | typeError
deriving DecidableEq, Repr

/-- `fetchQuery`: throw on `response.status !== 200`; otherwise throw if the
decoded body's `errors` member is present (truthy) — with the first error's
message when the array is nonempty, with a TypeError when it is empty — and
return the decoded body otherwise. -/
def fetchQuery {γ : Type} (resp : GQLResponse γ) : Except FetchError (GQLBody γ) :=
  if resp.status ≠ 200 then Except.error (FetchError.transport resp.statusText)
  else
    match resp.body.errors with
    | none => Except.ok resp.body
    | some [] => Except.error FetchError.typeError
    | some (e :: _) => Except.error (FetchError.query e.message)

/-! ### activity.js — the sequential pagination loops (collectAll shape) -/

/-- One page of a paginated connection: `{nodes, pageInfo}`. -/
structure PageOf (α : Type) where
  nodes : List α
  hasNextPage : Bool
  endCursor : Option String
deriving DecidableEq, Repr

/-- The shared loop shape of `fetchPRComments` (lines 355-370),
`fetchPRReviewDetails` and `fetchCommitContributionsForRepo` (lines 316-334)
over the trace of responses: `none` models a response whose nested object
chain is absent (`data.data?...` null), on which the loop breaks with the
accumulator so far; otherwise the page's nodes are appended in page order
and the loop continues exactly while `pageInfo.hasNextPage` is true. -/
def collectOptPages {α : Type} : List (Option (PageOf α)) → List α
  | [] => []
  | none :: _ => []
  | some p :: rest => p.nodes ++ (if p.hasNextPage then collectOptPages rest else [])

/-- Number of fetches the loop performs on a given trace. -/
def collectCount {α : Type} : List (Option (PageOf α)) → Nat
  | [] => 0
  | none :: _ => 1
  | some p :: rest => 1 + (if p.hasNextPage then collectCount rest else 0)

/-- A commit node of the `contributionsByRepoGraphql` history connection. -/
structure Commit where
  messageHeadline : String
  messageBody : String
  committedDate : JSDate
deriving DecidableEq, Repr

/-- `fetchPRComments` as a function of its response trace. -/
def fetchPRComments (responses : List (Option (PageOf RawComment))) : List RawComment :=
  collectOptPages responses

/-- `fetchCommitContributionsForRepo` as a function of its response trace. -/
def fetchCommitContributionsForRepo (responses : List (Option (PageOf Commit))) : List Commit :=
  collectOptPages responses

/-! ### activity.js — enrichPullRequestData (lines 399-434) -/

/-- The joint result of one PR's four sub-fetches (comments, review details,
changed files, timeline items). -/
structure PREnrichment where
  comments : List RawComment
  reviewDetails : List ReviewDetail
  changedFiles : List ChangedFile
  timelineItems : List TimelineItem
deriving DecidableEq, Repr

/-- JS object key assignment `acc[k] = v` on an object modelled as an
insertion-ordered association list: overwrite in place when the key exists,
append otherwise. -/
def jsObjectInsert (acc : List (String × Nat)) (k : String) (v : Nat) :
    List (String × Nat) :=
  if acc.any (fun p => p.1 == k) then
    acc.map (fun p => if p.1 == k then (k, v) else p)
  else acc ++ [(k, v)]

/-- The `reduce` over `comment.reactionGroups`: keep only groups with a
nonzero reactor count, as reaction-kind to count. -/
def collapseReactions (groups : List ReactionGroup) : List (String × Nat) :=
  groups.foldl
    (fun acc g =>
      if g.reactorsTotalCount > 0 then jsObjectInsert acc g.content g.reactorsTotalCount
      else acc)
    []

/-- The per-comment mutation: delete `reactionGroups`, attach `reactions`
only when the collapsed mapping is nonempty (`Object.keys(reactions).length`). -/
def enrichComment (c : RawComment) : EnrichedComment :=
  let reactions := collapseReactions c.reactionGroups
  { authorLogin := c.authorLogin
    bodyText := c.bodyText
    createdAt := c.createdAt
    reactions := if reactions.isEmpty then none else some reactions }

/-- The in-place mutation one succeeded PR task performs (activity.js lines
413-428): attach the four secondary fields, date-filtering comments and
review details by `new Date(x.createdAt) >= since`. -/
def attachEnrichment (since : JSDate) (pr : APR) (r : PREnrichment) : APR :=
  { pr with
    commentDetails :=
      some ((r.comments.filter (fun c => dateLe since c.createdAt)).map enrichComment)
    reviewDetails := some (r.reviewDetails.filter (fun v => dateLe since v.createdAt))
    changedFiles := some r.changedFiles
    timelineItems := some r.timelineItems }

/-- Effect of one task's outcome on its PR: a succeeded task has mutated the
record, a failed task has thrown before any of its assignments ran. -/
def applyOutcome (since : JSDate) (pr : APR) (o : Except FetchError PREnrichment) : APR :=
  match o with
  | Except.ok r => attachEnrichment since pr r
  | Except.error _ => pr

/-- The rejection `Promise.all` settles with: the first failing task's error
(tasks are modelled as settling in list order). -/
def firstError {ε α : Type} : List (Except ε α) → Option ε
  | [] => none
  | Except.error e :: _ => some e
  | Except.ok _ :: rest => firstError rest

/-- Observable state of the bundle after the PR fan-out: each PR carries the
effect of its own task's outcome, because merging is by in-place mutation of
the shared records as each task completes. `outcomes` pairs with
`activity.pullRequests` positionally (one task per PR); a shorter `outcomes`
leaves trailing PRs untouched. -/
def enrichPRState (since : JSDate) (activity : UAActivity)
    (outcomes : List (Except FetchError PREnrichment)) : UAActivity :=
  { activity with
    pullRequests :=
      activity.pullRequests.zipWith (applyOutcome since) outcomes ++
        activity.pullRequests.drop outcomes.length }

/-- `enrichPullRequestData` under a schedule in which every task settles,
`outcomes[i]` being PR `i`'s joint sub-fetch result: the first component is
what the `await Promise.all(queue)` produces (the function's thrown error or
returned activity), the second the observable state of the bundle either
way. -/
def enrichPullRequestData (since : JSDate) (activity : UAActivity)
    (outcomes : List (Except FetchError PREnrichment)) :
    Except FetchError UAActivity × UAActivity :=
  let state := enrichPRState since activity outcomes
  match firstError outcomes with
  | some e => (Except.error e, state)
  | none => (Except.ok state, state)

/-! ### Repository-health script (index.js) — fetchPRData and
calculateResponseTimes. Timestamps here are plain epoch milliseconds (`Int`):
this script subtracts and compares `Date` values numerically and performs no
calendar arithmetic inside the modelled functions; `rangeStart` / `rangeEnd`
are the module-level window bounds, passed as parameters. -/

/-- An event as seen by `calculateResponseTimes`: a comment node (author,
no `__typename`), a review node (author, no `__typename`), or a timeline
node (`__typename` of ClosedEvent / MergedEvent / ReadyForReviewEvent, with
an `actor` that may be absent). Fields a given node kind lacks are `none`.
The review nodes' unread `state` field is elided. -/
structure RTEvent where
  typename : Option String
  authorLogin : Option String
  actorLogin : Option String
  createdAt : Int
deriving DecidableEq, Repr

/-- JS truthiness of `x?.login`: `undefined` and the empty string are falsy. -/
def jsTruthyStr (s : Option String) : Bool :=
  match s with
  | some str => !(str == "")
  | none => false

/-- JS `a || b`. -/
def jsOrStr (a b : Option String) : Option String :=
  if jsTruthyStr a then a else b

/-- The source's `event.author?.login || event.actor?.login`. -/
def effLogin (e : RTEvent) : Option String :=
  jsOrStr e.authorLogin e.actorLogin

/-- A pull-request node of `graphqlPullRequestQuery` as read by the script. -/
structure HealthPR where
  number : Nat
  createdAt : Int
  authorLogin : String
  isDraft : Bool
  comments : List RTEvent
  reviews : List RTEvent
  timelineItems : List RTEvent
deriving DecidableEq, Repr

/-- `const allEvents = [...pr.comments.nodes, ...pr.reviews.nodes,
...pr.timelineItems.nodes]`: concatenation in this fixed order, each group
in upstream arrival order, with no re-sort. -/
def allEvents (pr : HealthPR) : List RTEvent :=
  pr.comments ++ pr.reviews ++ pr.timelineItems

/-- `convertToRoundedHours`: `Math.round(milliseconds / 3600000)`.
JS `Math.round(x)` is `⌊x + 1/2⌋` (ties toward positive infinity), so over
the rationals `round(ms / H) = ⌊(2 ms + H) / (2 H)⌋` with `H = 3600000`. -/
def convertToRoundedHours (milliseconds : Int) : Int :=
  Int.fdiv (2 * milliseconds + 3600000) 7200000

/-- Selector for the first `ReadyForReviewEvent`. -/
def isReadyForReview (e : RTEvent) : Bool :=
  e.typename == some "ReadyForReviewEvent"

/-- The `officialEvent` predicate: a known maintainer other than the author
responded, or the PR was closed or merged. `maintainers.includes(x)` is
false when `x` is `undefined`, and `x !== creator` is true then; the two
`event.author?.login || event.actor?.login` occurrences in the source
evaluate to the same value, matched once here. -/
def officialPredicate (maintainers : List String) (creator : String)
    (e : RTEvent) : Bool :=
  (match effLogin e with
    | some l => maintainers.contains l && !(l == creator)
    | none => false)
  || e.typename == some "ClosedEvent" || e.typename == some "MergedEvent"

/-- The `nonAuthorEvent` predicate:
`(event.author?.login || event.actor?.login) !== creator` (true when the
effective login is absent, since `undefined !== creator`). -/
def nonAuthorPredicate (creator : String) (e : RTEvent) : Bool :=
  !(effLogin e == some creator)

/-- The `resolvedEvent` predicate: a ClosedEvent or MergedEvent. -/
def isResolved (e : RTEvent) : Bool :=
  e.typename == some "ClosedEvent" || e.typename == some "MergedEvent"

/-- One record of `calculateResponseTimes`'s output. -/
structure RTRecord where
  number : Nat
  createdAt : Int
  resolvedAt : Option Int
  resolutionTime : Option Int
  maintainer : Bool
  creator : String
  officialResponseHours : Option Int
  nonAuthorResponseHours : Option Int
deriving DecidableEq, Repr

/-- The effective creation time: the first `ReadyForReviewEvent`'s timestamp
when one exists anywhere in the as-built event list, else the PR's raw
`createdAt`. -/
def effectiveCreatedAt (pr : HealthPR) : Int :=
  match (allEvents pr).find? isReadyForReview with
  | some e => e.createdAt
  | none => pr.createdAt

/-- The body of the `pullRequests.map` in `calculateResponseTimes`
(index.js lines 172-226): each selector is a first-match scan of the
as-built event list; the three hour fields are `null` when the respective
event is absent; `resolutionTime` is measured from `effectiveCreatedAt`
while the two response-hour fields are measured from the raw `createdAt`. -/
def calculateResponseTimesOne (maintainers : List String) (pr : HealthPR) : RTRecord :=
  let prCreatedAt := pr.createdAt
  let creator := pr.authorLogin
  let events := allEvents pr
  let officialEvent := events.find? (officialPredicate maintainers creator)
  let nonAuthorEvent := events.find? (nonAuthorPredicate creator)
  let resolvedEvent := events.find? isResolved
  { number := pr.number
    createdAt := pr.createdAt
    resolvedAt := resolvedEvent.map (fun e => e.createdAt)
    resolutionTime :=
      resolvedEvent.map (fun e => convertToRoundedHours (e.createdAt - effectiveCreatedAt pr))
    maintainer := maintainers.contains creator
    creator := creator
    officialResponseHours :=
      officialEvent.map (fun e => convertToRoundedHours (e.createdAt - prCreatedAt))
    nonAuthorResponseHours :=
      nonAuthorEvent.map (fun e => convertToRoundedHours (e.createdAt - prCreatedAt)) }

/-- `calculateResponseTimes(pullRequests, maintainers)`. -/
def calculateResponseTimes (pullRequests : List HealthPR)
    (maintainers : List String) : List RTRecord :=
  pullRequests.map (calculateResponseTimesOne maintainers)

/-- One page of the descending-by-creation-date PR listing. -/
structure HealthPage where
  nodes : List HealthPR
  hasNextPage : Bool
  endCursor : Option String
deriving DecidableEq, Repr

/-- The early-exit test of `fetchPRData` (index.js lines 150-155): the
fetched batch is nonempty and its last (oldest, given descending order)
item's `createdAt` precedes `rangeStart`. -/
def earlyExit (rangeStart : Int) (p : HealthPage) : Bool :=
  !p.nodes.isEmpty &&
    (match p.nodes.getLast? with
      | some pr => decide (pr.createdAt < rangeStart)
      | none => false)

/-- The accumulation loop of `fetchPRData` over the response trace: append
the page's nodes, then continue only when `pageInfo.hasNextPage` is true and
the early-exit test did not fire. -/
def fetchPRDataLoop (rangeStart : Int) : List HealthPage → List HealthPR
  | [] => []
  | p :: rest =>
    p.nodes ++
      (if p.hasNextPage && !earlyExit rangeStart p then fetchPRDataLoop rangeStart rest
      else [])

/-- Number of pages `fetchPRData` requests on a given trace. -/
def fetchPRDataCount (rangeStart : Int) : List HealthPage → Nat
  | [] => 0
  | p :: rest =>
    1 + (if p.hasNextPage && !earlyExit rangeStart p then fetchPRDataCount rangeStart rest
        else 0)

/-- `fetchPRData`: run the loop, then keep non-draft PRs created inside the
window (index.js lines 158-162). -/
def fetchPRData (rangeStart rangeEnd : Int) (pages : List HealthPage) : List HealthPR :=
  (fetchPRDataLoop rangeStart pages).filter
    (fun pr =>
      !pr.isDraft && decide (rangeStart ≤ pr.createdAt) && decide (pr.createdAt ≤ rangeEnd))

/-! ### Open-PR monitor script — fetchRepoMetrics -/

/-- A pull-request node of the monitor's `MONITOR_QUERY`. -/
structure MonPR where
  number : Nat
  title : String
  createdAt : JSDate
  state : String
  isDraft : Bool
  url : String
deriving DecidableEq, Repr

/-- One page of the monitor's open-PR listing. -/
structure MonPage where
  nodes : List MonPR
  hasNextPage : Bool
  endCursor : Option String
deriving DecidableEq, Repr

/-- An entry of the monitor's collected `prs` list. -/
structure MonEntry where
  created : String
  state : String
  title : String
  url : String
deriving DecidableEq, Repr

/-- The record pushed for a non-draft PR; `fmt` stands for the host call
`new Date(pr.createdAt).toLocaleDateString()`. -/
def monitorEntry (fmt : JSDate → String) (pr : MonPR) : MonEntry :=
  { created := fmt pr.createdAt, state := pr.state, title := pr.title, url := pr.url }

/-- `fetchRepoMetrics` over the response trace: push an entry for each
non-draft node of each page, continuing while `pageInfo.hasNextPage`. -/
def fetchRepoMetrics (fmt : JSDate → String) : List MonPage → List MonEntry
  | [] => []
  | p :: rest =>
    (p.nodes.filter (fun pr => !pr.isDraft)).map (monitorEntry fmt) ++
      (if p.hasNextPage then fetchRepoMetrics fmt rest else [])

/-- The PR nodes the monitor's loop iterates over (all nodes of consumed
pages, drafts included). -/
def monConsumedNodes : List MonPage → List MonPR
  | [] => []
  | p :: rest => p.nodes ++ (if p.hasNextPage then monConsumedNodes rest else [])

/-! ### Concrete fixtures used by witnesses and counterexamples -/

/-- June 15 2024, midnight. -/
def d0 : JSDate := ⟨2024, 5, 15, 0⟩

/-- June 20 2024, midnight (after `d0`). -/
def dLater : JSDate := ⟨2024, 5, 20, 0⟩

/-- March 1 2024, midnight (before `d0`). -/
def dEarlier : JSDate := ⟨2024, 2, 1, 0⟩

/-- A sample fetched PR comment. -/
def cm1 : RawComment := ⟨some "alice", "first comment", d0, []⟩

/-- A second sample fetched PR comment. -/
def cm2 : RawComment := ⟨some "bob", "second comment", dLater, []⟩

/-- A sample commit. -/
def km1 : Commit := ⟨"fix build", "", d0⟩

/-- A second sample commit. -/
def km2 : Commit := ⟨"add docs", "details", dLater⟩

/-- A comments page that reports a further page. -/
def cpageA : PageOf RawComment := ⟨[cm1], true, some "cursorA"⟩

/-- A final comments page. -/
def cpageB : PageOf RawComment := ⟨[cm2], false, none⟩

/-- A commit-history page that reports a further page. -/
def kpageA : PageOf Commit := ⟨[km1], true, some "cursorK"⟩

/-- A final commit-history page. -/
def kpageB : PageOf Commit := ⟨[km2], false, none⟩

/-! ### Claim C6 — sequential pagination to exhaustion -/

/-- Helper: on a trace whose pages all exist, where the pages before the
last one report `hasNextPage = true` and the last reports `false`, the loop
performs exactly one fetch per such page and returns the concatenation of
their nodes in page order; later responses are never requested. -/
theorem collectOptPages_exhaust {α : Type} (ps : List (PageOf α))
    (lastPage : PageOf α) (rest : List (Option (PageOf α)))
    (h : ∀ p ∈ ps, p.hasNextPage = true) (hl : lastPage.hasNextPage = false) :
    collectOptPages (ps.map some ++ some lastPage :: rest) =
      ps.flatMap PageOf.nodes ++ lastPage.nodes ∧
    collectCount (ps.map some ++ some lastPage :: rest) = ps.length + 1 := by
  induction ps with
  | nil => simp [collectOptPages, collectCount, hl]
  | cons p ps ih =>
    have hp : p.hasNextPage = true := h p (List.mem_cons_self _ _)
    have ih2 := ih (fun q hq => h q (List.mem_cons_of_mem _ hq))
    refine ⟨?_, ?_⟩
    · simp [collectOptPages, hp, ih2.1, List.append_assoc]
    · simp [collectCount, hp, ih2.2]
      omega

/-- Claim C6 (confirmed): for every page sequence in which the k-th page is
the first to report `hasNextPage = false` (here `k = ps.length + 1`), the
collect-all loops of `fetchPRComments` and `fetchCommitContributionsForRepo`
terminate after exactly k fetches and return exactly the concatenation of
the nodes of pages 1..k in page order — no reordering, deduplication, or
dropped nodes — for any k. -/
theorem collectAll_pages_exact
    (psC : List (PageOf RawComment)) (lastC : PageOf RawComment)
    (restC : List (Option (PageOf RawComment)))
    (psK : List (PageOf Commit)) (lastK : PageOf Commit)
    (restK : List (Option (PageOf Commit)))
    (hC : ∀ p ∈ psC, p.hasNextPage = true) (hCl : lastC.hasNextPage = false)
    (hK : ∀ p ∈ psK, p.hasNextPage = true) (hKl : lastK.hasNextPage = false) :
    fetchPRComments (psC.map some ++ some lastC :: restC) =
      psC.flatMap PageOf.nodes ++ lastC.nodes ∧
    collectCount (psC.map some ++ some lastC :: restC) = psC.length + 1 ∧
    fetchCommitContributionsForRepo (psK.map some ++ some lastK :: restK) =
      psK.flatMap PageOf.nodes ++ lastK.nodes ∧
    collectCount (psK.map some ++ some lastK :: restK) = psK.length + 1 := by
  have h1 := collectOptPages_exhaust psC lastC restC hC hCl
  have h2 := collectOptPages_exhaust psK lastK restK hK hKl
  exact ⟨h1.1, h1.2, h2.1, h2.2⟩

/-- Witness for C6: a two-page sequence for each loop (k = 2). -/
theorem collectAll_pages_exact_witness :
    fetchPRComments [some cpageA, some cpageB] = [cm1, cm2] ∧
    collectCount [some cpageA, some cpageB] = 2 ∧
    fetchCommitContributionsForRepo [some kpageA, some kpageB] = [km1, km2] ∧
    collectCount [some kpageA, some kpageB] = 2 := by
  have h := collectAll_pages_exact [cpageA] cpageB [] [kpageA] kpageB []
    (by intro p hp; simp at hp; subst hp; rfl) (by rfl)
    (by intro p hp; simp at hp; subst hp; rfl) (by rfl)
  simpa [cpageA, cpageB, kpageA, kpageB] using h

/-! ### Claims C1 and C2 — the widened fetch of fetchUserActivity -/

/-- A review contribution node. -/
def rev1 : AReview := ⟨d0, dLater, "APPROVED", 1, "acme/widgets", 7, "Add widget", some "carol"⟩

/-- A second, distinct review contribution node. -/
def rev2 : AReview := ⟨d0, dLater, "COMMENTED", 0, "acme/widgets", 8, "Fix widget", some "dave"⟩

/-- A contributions page whose PR collection is exhausted
(`hasNextPage = false`) while its review collection still reports
`hasNextPage = true`. -/
def cpage1 : ContribPage :=
  ⟨[], false, none, [rev1], true, some "revCursor1", [], false, none, []⟩

/-- The further review page the endpoint would serve. -/
def cpage2 : ContribPage :=
  ⟨[], false, none, [rev2], false, none, [], false, none, []⟩

/-- Counterexample to claim C1: on the trace `[cpage1, cpage2]` the review
collection of the first page still reports `hasNextPage = true`, yet the
loop — which reads only `pullRequestContributions.pageInfo` — issues no
further request, and the review node of the second page is omitted from the
pre-filter accumulator (and hence from the filtered result, although its
`updatedAt` is inside the window). -/
theorem fetchUserActivity_reviews_not_exhausted :
    cpage1.reviewHasNextPage = true ∧
    (fetchUserActivityQueries "alice" d0 [cpage1, cpage2]).length = 1 ∧
    rev2 ∈ cpage2.reviewNodes ∧
    rev2 ∉ (fetchUserActivityLoop [cpage1, cpage2]).reviews ∧
    dateLe d0 rev2.updatedAt = true ∧
    rev2 ∉ (fetchUserActivity "alice" d0 [cpage1, cpage2]).reviews := by
  refine ⟨rfl, rfl, ?_, ?_, rfl, ?_⟩
  · simp [cpage2, List.mem_singleton]
  · simp [fetchUserActivityLoop, cpage1, cpage2, rev1, rev2]
  · simp [fetchUserActivity, fetchUserActivityLoop, cpage1, cpage2, rev1, rev2, dateLe]

/-- Claim C1 (amended): the widened fetch is paginated by the
pull-request contributions collection's `pageInfo` alone — the loop performs
one fetch per page while that collection reports `hasNextPage = true` and
stops with the first page where it is `false`, accumulating the PR, review
and issue nodes of exactly the consumed pages; the review and issue
collections' own `pageInfo` never triggers a further request. -/
theorem fetchUserActivity_pagination_amended (login : String) (fromDate : JSDate)
    (cursor : Option String) (ps : List ContribPage) (p : ContribPage)
    (rest : List ContribPage)
    (hps : ∀ q ∈ ps, q.prHasNextPage = true) (hp : p.prHasNextPage = false) :
    (fetchUserActivityLoop (ps ++ p :: rest)).pullRequests =
      (ps ++ [p]).flatMap ContribPage.prNodes ∧
    (fetchUserActivityLoop (ps ++ p :: rest)).reviews =
      (ps ++ [p]).flatMap ContribPage.reviewNodes ∧
    (fetchUserActivityLoop (ps ++ p :: rest)).issues =
      (ps ++ [p]).flatMap ContribPage.issueNodes ∧
    (fetchUserActivityRequestsFrom login fromDate cursor (ps ++ p :: rest)).length =
      ps.length + 1 := by
  induction ps generalizing cursor with
  | nil =>
    simp [fetchUserActivityLoop, fetchUserActivityRequestsFrom, hp]
  | cons q ps ih =>
    have hq : q.prHasNextPage = true := hps q (List.mem_cons_self _ _)
    have ih2 := ih q.prEndCursor (fun r hr => hps r (List.mem_cons_of_mem _ hr))
    refine ⟨?_, ?_, ?_, ?_⟩
    · simp [fetchUserActivityLoop, hq, ih2.1]
    · simp [fetchUserActivityLoop, hq, ih2.2.1]
    · simp [fetchUserActivityLoop, hq, ih2.2.2.1]
    · simp [fetchUserActivityRequestsFrom, hq, ih2.2.2.2]

/-- Witness for the amended C1 theorem at the counterexample trace. -/
theorem fetchUserActivity_pagination_amended_witness :
    (fetchUserActivityLoop [cpage1, cpage2]).reviews = [rev1] ∧
    (fetchUserActivityRequestsFrom "alice" (setMonthMinusOne d0) none
      [cpage1, cpage2]).length = 1 := by
  have h := fetchUserActivity_pagination_amended "alice" (setMonthMinusOne d0) none
    [] cpage1 [cpage2] (by intro q hq; simp at hq) rfl
  refine ⟨?_, h.2.2.2⟩
  simpa [cpage1] using h.2.1

/-- Helper: every request the widened fetch issues carries the same `since`
variable `fromDate`, whatever the cursor threading does. -/
theorem requestsFrom_since_const (login : String) (fromDate : JSDate)
    (pages : List ContribPage) :
    ∀ (cursor : Option String),
      ∀ q ∈ fetchUserActivityRequestsFrom login fromDate cursor pages,
        q.since = fromDate := by
  induction pages with
  | nil => intro cursor q hq; simp [fetchUserActivityRequestsFrom] at hq
  | cons p rest ih =>
    intro cursor q hq
    cases hpn : p.prHasNextPage with
    | false =>
      simp [fetchUserActivityRequestsFrom, hpn] at hq
      subst hq; rfl
    | true =>
      simp [fetchUserActivityRequestsFrom, hpn] at hq
      rcases hq with hq | hq
      · subst hq; rfl
      · exact ih p.prEndCursor q hq

/-- Claim C2 (confirmed): every request of the widened fetch carries the
start timestamp `window.start` minus one calendar month (the JS
`setMonth(getMonth() - 1)` arithmetic embedded as `setMonthMinusOne`), and
an item of the PR / review / issue collections is in the final result iff it
was in the widened pre-filter accumulator and its `updatedAt` is at or after
`window.start` — in particular items updated before `window.start` are
dropped regardless of `createdAt`, and fetched items updated at or after it
are retained regardless of `createdAt` (the filter never reads
`createdAt`). -/
theorem fetchUserActivity_window_policy (login : String) (since : JSDate)
    (pages : List ContribPage) :
    (∀ q ∈ fetchUserActivityQueries login since pages,
      q.since = setMonthMinusOne since) ∧
    (∀ pr : APR, pr ∈ (fetchUserActivity login since pages).pullRequests ↔
      pr ∈ (fetchUserActivityLoop pages).pullRequests ∧ since.key ≤ pr.updatedAt.key) ∧
    (∀ r : AReview, r ∈ (fetchUserActivity login since pages).reviews ↔
      r ∈ (fetchUserActivityLoop pages).reviews ∧ since.key ≤ r.updatedAt.key) ∧
    (∀ i : AIssue, i ∈ (fetchUserActivity login since pages).issues ↔
      i ∈ (fetchUserActivityLoop pages).issues ∧ since.key ≤ i.updatedAt.key) := by
  refine ⟨requestsFrom_since_const login (setMonthMinusOne since) pages none, ?_, ?_, ?_⟩ <;>
    intro x <;> simp [fetchUserActivity, dateLe, List.mem_filter]

/-- A PR created two months before the window start but updated inside the
window (enrichment fields at their fetched default, absent). -/
def samplePR : APR :=
  { title := "Sample", number := 1, repositoryNameWithOwner := "acme/widgets"
    createdAt := dEarlier, updatedAt := dLater, mergedAt := none, closedAt := none
    isDraft := false, state := "OPEN", commitsTotalCount := 1, additions := 10
    deletions := 2, commentsTotalCount := 0, reviewsTotalCount := 0, body := "text" }

/-- A single final contributions page carrying `samplePR`. -/
def wpage : ContribPage :=
  ⟨[samplePR], false, none, [], false, none, [], false, none, []⟩

/-- Witness for C2: `samplePR` was created before the window start yet
updated after it, and is retained by the filtered aggregation. -/
theorem fetchUserActivity_window_policy_witness :
    samplePR ∈ (fetchUserActivity "alice" d0 [wpage]).pullRequests :=
  ((fetchUserActivity_window_policy "alice" d0 [wpage]).2.1 samplePR).mpr
    ⟨by simp [fetchUserActivityLoop, wpage], by decide⟩

/-! ### Claim C7 — fetchQuery error taxonomy -/

/-- A 200 response whose body carries a present but empty `errors` array. -/
def emptyErrorsResponse : GQLResponse Unit := ⟨200, "OK", ⟨(), some []⟩⟩

/-- Counterexample to claim C7: with a success status and an empty `errors`
list, `fetchQuery` does not return the decoded body — `if (data.errors)` is
taken because an empty array is truthy, and reading
`data.errors[0].message` fails — contradicting the claim that an absent or
empty errors list yields a successful return. -/
theorem fetchQuery_empty_errors_not_ok :
    emptyErrorsResponse.status = 200 ∧
    emptyErrorsResponse.body.errors = some [] ∧
    fetchQuery emptyErrorsResponse ≠ Except.ok emptyErrorsResponse.body ∧
    fetchQuery emptyErrorsResponse = Except.error FetchError.typeError := by
  refine ⟨rfl, rfl, ?_, rfl⟩
  intro h
  simp [fetchQuery, emptyErrorsResponse] at h

/-- Claim C7 (amended): the page fetch fails with a transport error exactly
when the HTTP status is not 200, fails with a query error carrying the first
reported message exactly when the status is 200 and the decoded body's
errors list is present and nonempty, and returns the decoded body exactly
when the status is 200 and the errors list is absent; when the status is 200
and the errors list is present but empty the fetch still fails, with a
TypeError rather than a query message. -/
theorem fetchQuery_taxonomy {γ : Type} (resp : GQLResponse γ) :
    ((∃ s, fetchQuery resp = Except.error (FetchError.transport s)) ↔
      resp.status ≠ 200) ∧
    (∀ m, fetchQuery resp = Except.error (FetchError.query m) ↔
      resp.status = 200 ∧ ∃ es, resp.body.errors = some (⟨m⟩ :: es)) ∧
    (fetchQuery resp = Except.ok resp.body ↔
      resp.status = 200 ∧ resp.body.errors = none) ∧
    (fetchQuery resp = Except.error FetchError.typeError ↔
      resp.status = 200 ∧ resp.body.errors = some []) := by
  rcases herr : resp.body.errors with _ | ⟨_ | ⟨⟨msg⟩, es⟩⟩ <;>
    by_cases hs : resp.status = 200 <;>
    simp [fetchQuery, hs, herr]

/-! ### Claims C3 and C4 — calculateResponseTimes -/

/-- The maintainer set of the worked example. -/
def exMaintainers : List String := ["maint1"]

/-- One hour in milliseconds. -/
def hourMs : Int := 3600000

/-- ReadyForReview timeline event at T0 + 2h (actor is the PR's creator). -/
def exRFR : RTEvent := ⟨some "ReadyForReviewEvent", none, some "dev1", 2 * hourMs⟩

/-- Maintainer (non-author) comment at T0 + 5h. -/
def exComment : RTEvent := ⟨none, some "maint1", none, 5 * hourMs⟩

/-- Merged timeline event at T0 + 30h. -/
def exMerged : RTEvent := ⟨some "MergedEvent", none, some "maint1", 30 * hourMs⟩

/-- The worked example PR: created at T0 = 0 by dev1, with the three events
above (comment group first, then the two timeline events). -/
def examplePR : HealthPR := ⟨101, 0, "dev1", false, [exComment], [], [exRFR, exMerged]⟩

/-- Claim C3 (confirmed): `officialResponseHours` and
`nonAuthorResponseHours` are the rounded hours from the raw `createdAt` to
the respective first qualifying event, while `resolutionTime` is the rounded
hours from `effectiveCreatedAt` (the ReadyForReview timestamp when present,
else raw `createdAt`) to the resolving event; on the worked example
(ReadyForReview at T0+2h, maintainer comment at T0+5h, Merged at T0+30h) the
official response is 5 hours (from raw T0) and the resolution 28 hours (from
T0+2h). -/
theorem calculateResponseTimes_bases (maintainers : List String) (pr : HealthPR)
    (eo en er : RTEvent)
    (ho : (allEvents pr).find? (officialPredicate maintainers pr.authorLogin) = some eo)
    (hn : (allEvents pr).find? (nonAuthorPredicate pr.authorLogin) = some en)
    (hr : (allEvents pr).find? isResolved = some er) :
    (calculateResponseTimesOne maintainers pr).officialResponseHours =
      some (convertToRoundedHours (eo.createdAt - pr.createdAt)) ∧
    (calculateResponseTimesOne maintainers pr).nonAuthorResponseHours =
      some (convertToRoundedHours (en.createdAt - pr.createdAt)) ∧
    (calculateResponseTimesOne maintainers pr).resolutionTime =
      some (convertToRoundedHours (er.createdAt - effectiveCreatedAt pr)) ∧
    (calculateResponseTimesOne exMaintainers examplePR).officialResponseHours = some 5 ∧
    (calculateResponseTimesOne exMaintainers examplePR).resolutionTime = some 28 := by
  refine ⟨?_, ?_, ?_, by decide, by decide⟩ <;>
    simp [calculateResponseTimesOne, ho, hn, hr]

/-- Witness for C3 at the worked example: the first qualifying events are
the maintainer comment (official and non-author) and the Merged event
(resolving). -/
theorem calculateResponseTimes_bases_witness :
    (calculateResponseTimesOne exMaintainers examplePR).officialResponseHours =
      some (convertToRoundedHours (exComment.createdAt - examplePR.createdAt)) ∧
    (calculateResponseTimesOne exMaintainers examplePR).resolutionTime =
      some (convertToRoundedHours (exMerged.createdAt - effectiveCreatedAt examplePR)) := by
  have h := calculateResponseTimes_bases exMaintainers examplePR exComment exComment exMerged
    (by decide) (by decide) (by decide)
  exact ⟨h.1, h.2.2.1⟩

/-- Maintainer comment at T0 + 10h: listed first (comment group), though
later in time than the closing event below. -/
def lateComment : RTEvent := ⟨none, some "maint1", none, 10 * hourMs⟩

/-- Closed timeline event at T0 + 1h: earlier in time, later in the
as-built list. -/
def lateClosed : RTEvent := ⟨some "ClosedEvent", none, some "dev1", 1 * hourMs⟩

/-- A PR whose as-built event list has a qualifying element with an earlier
timestamp after a qualifying element with a later timestamp. -/
def latePR : HealthPR := ⟨102, 0, "dev1", false, [lateComment], [], [lateClosed]⟩

/-- Claim C4 (confirmed): the event list is the concatenation of comment,
review, then timeline events in upstream order with no global re-sort, and
`officialEvent` is the first element of that as-built list satisfying the
maintainer-non-author-or-Closed/Merged predicate (`List.find?` semantics:
the chosen element is preceded only by non-qualifying elements); on
`latePR`, the comment at T0+10h is chosen although the ClosedEvent later in
the list qualifies and has the earlier timestamp T0+1h. -/
theorem officialEvent_first_in_list_order (maintainers : List String)
    (pr : HealthPR) (e : RTEvent) :
    allEvents pr = pr.comments ++ pr.reviews ++ pr.timelineItems ∧
    ((allEvents pr).find? (officialPredicate maintainers pr.authorLogin) = some e ↔
      officialPredicate maintainers pr.authorLogin e = true ∧
      ∃ l₁ l₂, allEvents pr = l₁ ++ e :: l₂ ∧
        ∀ x ∈ l₁, officialPredicate maintainers pr.authorLogin x = false) ∧
    ((allEvents latePR).find? (officialPredicate exMaintainers latePR.authorLogin) =
      some lateComment ∧
     lateClosed ∈ allEvents latePR ∧
     officialPredicate exMaintainers latePR.authorLogin lateClosed = true ∧
     lateClosed.createdAt < lateComment.createdAt) := by
  refine ⟨rfl, ?_, by decide, by decide, by decide, by decide⟩
  rw [List.find?_eq_some]
  simp

/-! ### Claim C5 — early exit of the descending PR listing -/

/-- A PR created before the window start (timestamp 5, window start 10). -/
def oldPR : HealthPR := ⟨1, 5, "dev1", false, [], [], []⟩

/-- A PR created inside the window [10, 100]. -/
def goodPR : HealthPR := ⟨2, 50, "dev2", false, [], [], []⟩

/-- A page (descending order) whose oldest, last item precedes the window
start, while still reporting a further page. -/
def pageG : HealthPage := ⟨[goodPR, oldPR], true, some "cursorG"⟩

/-- The older page the endpoint would serve next. -/
def pageH : HealthPage := ⟨[⟨3, 1, "dev3", false, [], [], []⟩], false, none⟩

/-- Claim C5 (confirmed): once a fetched page's last (oldest) item has
`createdAt` before the window start, no further page is requested (the pages
before it having neither exhausted pagination nor fired the early exit), and
regardless of the trace no PR with `createdAt` before the window start
survives the final filter. -/
theorem fetchPRData_early_exit (rangeStart rangeEnd : Int)
    (ps : List HealthPage) (p : HealthPage) (rest : List HealthPage)
    (hps : ∀ q ∈ ps, (q.hasNextPage && !earlyExit rangeStart q) = true)
    (hp : earlyExit rangeStart p = true) :
    fetchPRDataCount rangeStart (ps ++ p :: rest) = ps.length + 1 ∧
    ∀ (pages : List HealthPage) (pr : HealthPR),
      pr ∈ fetchPRData rangeStart rangeEnd pages → rangeStart ≤ pr.createdAt := by
  constructor
  · induction ps with
    | nil => simp [fetchPRDataCount, hp]
    | cons q ps ih =>
      have hq := hps q (List.mem_cons_self _ _)
      have ih2 := ih (fun r hr => hps r (List.mem_cons_of_mem _ hr))
      simp [fetchPRDataCount, hq, ih2]
      omega
  · intro pages pr hpr
    simp [fetchPRData, List.mem_filter] at hpr
    exact hpr.2.1.2

/-- Witness for C5: the trace `[pageG, pageH]` stops after one fetch, and
the in-window PR of the fetched page is retained with `rangeStart ≤
createdAt`. -/
theorem fetchPRData_early_exit_witness :
    fetchPRDataCount 10 [pageG, pageH] = 1 ∧ (10 : Int) ≤ goodPR.createdAt := by
  have h := fetchPRData_early_exit 10 100 [] pageG [pageH]
    (by intro q hq; simp at hq) (by decide)
  exact ⟨by simpa using h.1, h.2 [pageG] goodPR (by decide)⟩

/-! ### Claims C8 and C9 — the PR enrichment fan-out -/

/-- Helper: position-wise effect of the fan-out on the PR list: the record
at index `i` carries exactly the effect of its own task's outcome. -/
theorem zipApply_get (since : JSDate) :
    ∀ (prs : List APR) (outs : List (Except FetchError PREnrichment)) (i : Nat)
      (pr : APR) (o : Except FetchError PREnrichment),
      prs[i]? = some pr → outs[i]? = some o →
      (prs.zipWith (applyOutcome since) outs ++ prs.drop outs.length)[i]? =
        some (applyOutcome since pr o) := by
  intro prs
  induction prs with
  | nil => intro outs i pr o h; simp at h
  | cons a prs ih =>
    intro outs i pr o hpr ho
    cases outs with
    | nil => simp at ho
    | cons b outs =>
      cases i with
      | zero =>
        simp at hpr ho
        subst hpr; subst ho
        simp
      | succ n =>
        simp at hpr ho
        simpa using ih outs n pr o hpr ho

/-- Helper: `firstError` is `none` exactly when no task failed. -/
theorem firstError_eq_none_iff {ε α : Type} :
    ∀ (l : List (Except ε α)), firstError l = none ↔ ∀ e, Except.error e ∉ l := by
  intro l
  induction l with
  | nil => simp [firstError]
  | cons x rest ih =>
    cases x with
    | error e =>
      constructor
      · intro h
        simp [firstError] at h
      · intro h
        exact absurd (List.mem_cons_self _ _) (h e)
    | ok a => simp [firstError, ih]

/-- Helper: whether the pass fails or not, its second component is the
post-run observable state. -/
theorem enrichPullRequestData_snd (since : JSDate) (activity : UAActivity)
    (outcomes : List (Except FetchError PREnrichment)) :
    (enrichPullRequestData since activity outcomes).2 =
      enrichPRState since activity outcomes := by
  cases hfe : firstError outcomes <;> simp [enrichPullRequestData, hfe]

/-- A failed sub-task's error. -/
def errX : FetchError := FetchError.transport "boom"

/-- A (trivial) successful joint sub-fetch result. -/
def enr1 : PREnrichment := ⟨[], [], [], []⟩

/-- A second PR, distinct from `samplePR`. -/
def samplePR2 : APR := { samplePR with number := 2 }

/-- A bundle with two pull requests. -/
def activity2 : UAActivity := ⟨[samplePR, samplePR2], [], [], []⟩

/-- Counterexample to claim C8: with two PR tasks, the first succeeding and
the second failing, the enrichment pass fails with the error, yet the
observable bundle is not unchanged — the first PR record already carries its
attached enrichment fields, because merging is by in-place mutation as each
task completes. -/
theorem enrichPullRequestData_mutates_on_failure :
    (enrichPullRequestData d0 activity2 [Except.ok enr1, Except.error errX]).1 =
      Except.error errX ∧
    (enrichPullRequestData d0 activity2 [Except.ok enr1, Except.error errX]).2.pullRequests =
      [attachEnrichment d0 samplePR enr1, samplePR2] ∧
    (attachEnrichment d0 samplePR enr1).commentDetails = some [] ∧
    samplePR.commentDetails = none :=
  ⟨rfl, rfl, rfl, rfl⟩

/-- Claim C8 (amended): when any sub-task fails the joint await fails with
the first failing task's error and the pass returns no merged result
(`firstError` is `none` exactly when no task failed); but the observable
bundle is not unchanged on error — each PR record's final state reflects its
own task's outcome, enriched when its sub-fetches succeeded even though the
pass as a whole failed. -/
theorem enrichPullRequestData_first_error (since : JSDate) (activity : UAActivity)
    (outcomes : List (Except FetchError PREnrichment)) (i : Nat) (pr : APR)
    (o : Except FetchError PREnrichment)
    (hpr : activity.pullRequests[i]? = some pr) (ho : outcomes[i]? = some o) :
    (enrichPullRequestData since activity outcomes).2.pullRequests[i]? =
      some (applyOutcome since pr o) ∧
    (enrichPullRequestData since activity outcomes).1 =
      (match firstError outcomes with
        | some e => Except.error e
        | none => Except.ok (enrichPRState since activity outcomes)) ∧
    (firstError outcomes = none ↔ ∀ e, Except.error e ∉ outcomes) := by
  refine ⟨?_, ?_, firstError_eq_none_iff outcomes⟩
  · have h := zipApply_get since activity.pullRequests outcomes i pr o hpr ho
    rw [enrichPullRequestData_snd]
    simpa [enrichPRState] using h
  · cases hfe : firstError outcomes <;> simp [enrichPullRequestData, hfe]

/-- Witness for the amended C8 theorem at the counterexample input
(first task succeeded, second failed). -/
theorem enrichPullRequestData_first_error_witness :
    (enrichPullRequestData d0 activity2
      [Except.ok enr1, Except.error errX]).2.pullRequests[0]? =
      some (attachEnrichment d0 samplePR enr1) := by
  have h := enrichPullRequestData_first_error d0 activity2
    [Except.ok enr1, Except.error errX] 0 samplePR (Except.ok enr1) rfl rfl
  exact h.1

/-- Claim C9 (confirmed): enrichment is purely additive on each PR record:
it attaches `commentDetails`, `reviewDetails`, `changedFiles` and
`timelineItems` (the first two date-filtered, comments with reactions
collapsed) and leaves every primary field unchanged. -/
theorem enrichment_additive (since : JSDate) (activity : UAActivity)
    (outcomes : List (Except FetchError PREnrichment)) (i : Nat) (pr : APR)
    (r : PREnrichment)
    (hpr : activity.pullRequests[i]? = some pr)
    (ho : outcomes[i]? = some (Except.ok r)) :
    (enrichPullRequestData since activity outcomes).2.pullRequests[i]? =
      some (attachEnrichment since pr r) ∧
    (attachEnrichment since pr r).number = pr.number ∧
    (attachEnrichment since pr r).title = pr.title ∧
    (attachEnrichment since pr r).repositoryNameWithOwner = pr.repositoryNameWithOwner ∧
    (attachEnrichment since pr r).createdAt = pr.createdAt ∧
    (attachEnrichment since pr r).updatedAt = pr.updatedAt ∧
    (attachEnrichment since pr r).mergedAt = pr.mergedAt ∧
    (attachEnrichment since pr r).closedAt = pr.closedAt ∧
    (attachEnrichment since pr r).isDraft = pr.isDraft ∧
    (attachEnrichment since pr r).state = pr.state ∧
    (attachEnrichment since pr r).commitsTotalCount = pr.commitsTotalCount ∧
    (attachEnrichment since pr r).additions = pr.additions ∧
    (attachEnrichment since pr r).deletions = pr.deletions ∧
    (attachEnrichment since pr r).commentsTotalCount = pr.commentsTotalCount ∧
    (attachEnrichment since pr r).reviewsTotalCount = pr.reviewsTotalCount ∧
    (attachEnrichment since pr r).body = pr.body ∧
    (attachEnrichment since pr r).commentDetails =
      some ((r.comments.filter (fun c => dateLe since c.createdAt)).map enrichComment) ∧
    (attachEnrichment since pr r).reviewDetails =
      some (r.reviewDetails.filter (fun v => dateLe since v.createdAt)) ∧
    (attachEnrichment since pr r).changedFiles = some r.changedFiles ∧
    (attachEnrichment since pr r).timelineItems = some r.timelineItems := by
  have h := zipApply_get since activity.pullRequests outcomes i pr (Except.ok r) hpr ho
  exact ⟨by rw [enrichPullRequestData_snd]; simpa [enrichPRState] using h,
    rfl, rfl, rfl, rfl, rfl, rfl, rfl, rfl, rfl, rfl,
    rfl, rfl, rfl, rfl, rfl, rfl, rfl, rfl, rfl⟩

/-- Witness for C9 at a concrete bundle (both tasks succeeded). -/
theorem enrichment_additive_witness :
    (enrichPullRequestData d0 activity2
      [Except.ok enr1, Except.ok enr1]).2.pullRequests[1]? =
      some (attachEnrichment d0 samplePR2 enr1) ∧
    (attachEnrichment d0 samplePR2 enr1).number = samplePR2.number := by
  have h := enrichment_additive d0 activity2 [Except.ok enr1, Except.ok enr1] 1
    samplePR2 enr1 rfl rfl
  exact ⟨h.1, h.2.1⟩

/-! ### Claim C10 — draft pull requests are excluded -/

/-- Helper: the monitor's collected list is exactly the non-draft nodes of
the consumed pages, transformed, in order. -/
theorem fetchRepoMetrics_eq (fmt : JSDate → String) :
    ∀ (pages : List MonPage),
      fetchRepoMetrics fmt pages =
        ((monConsumedNodes pages).filter (fun pr => !pr.isDraft)).map (monitorEntry fmt) := by
  intro pages
  induction pages with
  | nil => rfl
  | cons p rest ih =>
    cases hpn : p.hasNextPage <;>
      simp [fetchRepoMetrics, monConsumedNodes, hpn, ih, List.filter_append,
        List.map_append]

/-- A non-draft open PR for the monitor. -/
def mopen : MonPR := ⟨11, "Open PR", d0, "OPEN", false, "urlOpen"⟩

/-- A draft open PR for the monitor. -/
def mdraft : MonPR := ⟨12, "Draft PR", d0, "OPEN", true, "urlDraft"⟩

/-- A single monitor page holding both. -/
def mpage : MonPage := ⟨[mopen, mdraft], false, none⟩

/-- A concrete stand-in for `toLocaleDateString`. -/
def mfmt : JSDate → String := fun _ => "6/15/2024"

/-- Claim C10 (confirmed): every PR in the repository-health analysis input
(the output of `fetchPRData`, hence the input of `calculateResponseTimes`)
is non-draft, whatever its creation date; and the open-PR monitor's
collected list is exactly the non-draft nodes of the consumed pages — draft
nodes contribute no entry. -/
theorem draft_prs_excluded :
    (∀ (rangeStart rangeEnd : Int) (pages : List HealthPage) (pr : HealthPR),
      pr ∈ fetchPRData rangeStart rangeEnd pages → pr.isDraft = false) ∧
    (∀ (fmt : JSDate → String) (pages : List MonPage),
      fetchRepoMetrics fmt pages =
        ((monConsumedNodes pages).filter (fun pr => !pr.isDraft)).map (monitorEntry fmt)) := by
  constructor
  · intro rs re pages pr hpr
    simp [fetchPRData, List.mem_filter] at hpr
    exact hpr.2.1.1
  · intro fmt pages
    exact fetchRepoMetrics_eq fmt pages

/-- Witness for C10 at concrete inputs: the retained health PR is non-draft,
and the monitor page's draft node yields no entry. -/
theorem draft_prs_excluded_witness :
    goodPR.isDraft = false ∧
    fetchRepoMetrics mfmt [mpage] = [monitorEntry mfmt mopen] := by
  refine ⟨draft_prs_excluded.1 10 100 [pageG] goodPR (by decide), ?_⟩
  have h2 := draft_prs_excluded.2 mfmt [mpage]
  simpa [monConsumedNodes, mpage, mopen, mdraft] using h2

end RepoHealth
